import Mathlib

/-!
Verification of the psiturk replay-log compaction pipeline
(`psiturk_dataset/parser.py`): a shallow embedding of the parser's data
model and functions, followed by theorems about the claims of the
specification.

Modelling conventions:
* Python dicts with a fixed key set are Lean structures whose fields are
  `Option`-valued (a key that may be absent is `none`); reading an absent
  key is a `KeyError`, modelled in the `Py` error monad.
* Opaque JSON payload values that the parser copies without inspecting
  (positions, rotations, collision objects, ids, ...) are modelled by the
  atomic value type `JVal`; `JVal.emptyMap` stands for the empty dict `{}`
  that the code uses as a default.
* Fallible Python code lives in `Py α = Except PyError α`.  `PyError`
  mirrors the exceptions the code can raise (`KeyError`, `IndexError`,
  `TypeError`, `AttributeError`, `json.JSONDecodeError`, `SystemExit`);
  `PyError.outOfFuel` is an extra marker used only for the structural-fuel
  encoding of the two `while` loops of `post_process_episode` and is never
  returned for the fuel that `post_process_episode` supplies, because each
  iteration advances the cursor by at least one position.
* Print statements and the diagnostic `unique_action_combo_map` counter
  are pure bookkeeping with no effect on the returned value; only their
  fallible subscript accesses are modelled (`postDiagnostics`).
-/

/-- Opaque JSON values carried through the parser without being inspected. -/
inductive JVal where
  | null
  | boolV (b : Bool)
  | numV (n : Int)
  | strV (s : String)
  | emptyMap
deriving DecidableEq, Repr

/-- The Python exceptions the parser can raise, plus the fuel marker. -/
inductive PyError where
  | keyError (key : String)
  | indexError
  | typeError
  | attributeError
  | jsonDecodeError
  | systemExit (code : Nat)
  | outOfFuel
deriving DecidableEq, Repr

/-- Fallible Python computations. -/
abbrev Py (α : Type) := Except PyError α

/-- Reading key `key` from a dict field: `KeyError` when the key is absent. -/
def getKey {α : Type} (key : String) : Option α → Py α
  | some v => Except.ok v
  | none => Except.error (PyError.keyError key)

/-- The `action_data` dict built for grab/release actions
(`parse_replay_data_for_action`, grab branch). -/
structure GrabReleaseDelta where
  new_object_translation : Option JVal := none
  new_object_id : Option JVal := none
  object_handle : Option JVal := none
  gripped_object_id : Option JVal := none
deriving DecidableEq, Repr

/-- The `agent_state` dict (`position` / `rotation` / `sensor_data`). -/
structure AgentState where
  position : JVal
  rotation : JVal
  sensor_data : JVal
deriving DecidableEq, Repr

/-- One element of `object_states` as built by `get_object_states`. -/
structure ObjectState where
  object_id : JVal
  translation : JVal
  rotation : JVal
  motion_type : JVal
deriving DecidableEq, Repr

/-- One replay record as built by the classifier (`parse_replay_data_for_action`
or `parse_replay_data_for_step_physics`): a dict whose possible keys are the
fields below; an absent key is `none`. -/
structure ActionRecord where
  action : Option String := none
  is_grab_action : Option Bool := none
  is_release_action : Option Bool := none
  object_under_cross_hair : Option JVal := none
  gripped_object_id : Option JVal := none
  action_data : Option GrabReleaseDelta := none
  collision : Option JVal := none
  nearest_object_id : Option JVal := none
  agent_state : Option AgentState := none
  object_states : Option (List ObjectState) := none
  timestamp : Option String := none
deriving DecidableEq, Repr

/-- Replay lists may hold `None` entries (the compactor appends the result of
`merge_replay_data_for_action`, which can be `None`). -/
abbrev Replay := List (Option ActionRecord)

/-- Python `get_action`: `None` input yields `None`, otherwise `data.get("action")`. -/
def get_action : Option ActionRecord → Option String
  | none => none
  | some d => d.action

/-- Python `is_physics_step`. -/
def is_physics_step (action : Option String) : Bool :=
  action = some "stepPhysics"

/-- Subscripting a possibly-`None` record (`d[k]` / `d[k] = v` on `None`
raises `TypeError`). -/
def asRecord : Option ActionRecord → Py ActionRecord
  | some d => Except.ok d
  | none => Except.error PyError.typeError

/-- Python `merge_replay_data_for_action`.  The input is the accumulated
`action_data_list` of one run (which, in `post_process_episode`, also holds
the physics record that terminated the run).  Lengths 2 and 3 merge into the
last element; a length-3 list headed by `grabReleaseObject` calls
`sys.exit(1)`; any longer list falls through to `return None`. -/
def merge_replay_data_for_action : Replay → Py (Option ActionRecord)
  | [] => Except.error PyError.indexError
  | [a0] => Except.ok a0
  | [fd, ld] => do
      let first_action_data ← asRecord fd
      let action ← getKey "action" first_action_data.action
      let last0 ← asRecord ld
      let mut last_action_data := { last0 with action := some action }
      if action = "grabReleaseObject" then
        last_action_data := { last_action_data with
          action_data := some (← getKey "action_data" first_action_data.action_data),
          is_grab_action := some (← getKey "is_grab_action" first_action_data.is_grab_action),
          is_release_action := some (← getKey "is_release_action" first_action_data.is_release_action),
          object_under_cross_hair := some (← getKey "object_under_cross_hair" first_action_data.object_under_cross_hair),
          gripped_object_id := some (← getKey "gripped_object_id" first_action_data.gripped_object_id) }
      else
        last_action_data := { last_action_data with
          collision := some (← getKey "collision" first_action_data.collision),
          object_under_cross_hair := some (← getKey "object_under_cross_hair" first_action_data.object_under_cross_hair),
          nearest_object_id := some (← getKey "nearest_object_id" first_action_data.nearest_object_id) }
      return some last_action_data
  | [fd, nd, ld] => do
      let first_action_data ← asRecord fd
      let action ← getKey "action" first_action_data.action
      let mut new_action := action ++ "Twice"
      let next_action_data ← asRecord nd
      let next_action ← getKey "action" next_action_data.action
      if action ≠ next_action then
        new_action := action ++ next_action
      let last0 ← asRecord ld
      let mut last_action_data := { last0 with action := some new_action }
      if action ≠ "grabReleaseObject" then
        last_action_data := { last_action_data with
          collision := some (← getKey "collision" next_action_data.collision) }
      else
        throw (PyError.systemExit 1)
      return some last_action_data
  | fd :: _ :: _ :: _ :: _ => do
      let first_action_data ← asRecord fd
      let _ ← getKey "action" first_action_data.action
      return none

/-- Raw JSON shape of one entry of `data["objectStates"]`. -/
structure ObjectStateJson where
  objectId : JVal
  translation : JVal
  rotation : JVal
  motionType : JVal
deriving DecidableEq, Repr

/-- Raw JSON shape of `data["agentState"]`. -/
structure AgentStateJson where
  position : JVal
  rotation : JVal
  sensorData : JVal
deriving DecidableEq, Repr

/-- Raw JSON shape of `data["actionData"]["actionMeta"]`.  The keys the code
reads from it are required by the log schema, so they are plain fields. -/
structure ActionMetaJson where
  newObjectTranslation : JVal
  newObjectId : JVal
  objectHandle : JVal
  grippedObjectId : JVal
deriving DecidableEq, Repr

/-- Raw JSON shape of `data["actionData"]` on a `grabReleaseObject` event. -/
structure ActionDataJson where
  grabAction : Bool
  releaseAction : Bool
  objectUnderCrosshair : JVal
  grippedObjectId : JVal
  actionMeta : ActionMetaJson
deriving DecidableEq, Repr

/-- Raw JSON shape of one entry of `data["episode"]["objects"]`. -/
structure ObjectJson where
  objectId : JVal
  objectHandle : JVal
  position : JVal
  rotation : JVal
  motionType : JVal
  objectIcon : JVal
  isReceptacle : JVal
deriving DecidableEq, Repr

/-- Raw JSON shape of `data["episode"]["startState"]`. -/
structure StartStateJson where
  position : JVal
  rotation : JVal
deriving DecidableEq, Repr

/-- Raw JSON shape of `data["episode"]["task"]["goals"]`. -/
structure GoalsJson where
  objectToReceptacleMap : JVal
deriving DecidableEq, Repr

/-- Raw JSON shape of `data["episode"]["task"]`. -/
structure TaskJson where
  instruction : String
  goals : Option GoalsJson := none
deriving DecidableEq, Repr

/-- Raw JSON shape of `step["data"]["episode"]` on a `setEpisode` event. -/
structure EpisodeJson where
  sceneID : JVal
  startState : StartStateJson
  objects : List ObjectJson
  task : TaskJson
deriving DecidableEq, Repr

/-- Raw JSON shape of `step["data"]`: the union of the keys the code reads
from action, physics and `setEpisode` payloads; a key that may be absent in
a given payload is an `Option`. -/
structure StepData where
  episode : Option EpisodeJson := none
  action : Option String := none
  actionData : Option ActionDataJson := none
  collision : Option JVal := none
  objectUnderCrosshair : Option JVal := none
  nearestObjectId : Option JVal := none
  grippedObjectId : Option JVal := none
  agentState : Option AgentStateJson := none
  objectStates : Option (List ObjectStateJson) := none
deriving DecidableEq, Repr

/-- Raw JSON shape of one row's payload object (`type` is a reserved-ish
name, hence the trailing underscore). -/
structure Step where
  type_ : Option String := none
  step : Option String := none
  event : Option String := none
  data : Option StepData := none
deriving DecidableEq, Repr

/-- Python `get_object_states`: normalize `data["objectStates"]`. -/
def get_object_states (objectStates : List ObjectStateJson) : List ObjectState :=
  objectStates.map (fun o =>
    { object_id := o.objectId, translation := o.translation,
      rotation := o.rotation, motion_type := o.motionType })

/-- Python `parse_replay_data_for_action`. -/
def parse_replay_data_for_action (action : String) (data : StepData) :
    Py ActionRecord := do
  let mut replay_data : ActionRecord := {}
  replay_data := { replay_data with action := some action }
  if action = "grabReleaseObject" then
    let actionData ← getKey "actionData" data.actionData
    replay_data := { replay_data with
      is_grab_action := some actionData.grabAction,
      is_release_action := some actionData.releaseAction,
      object_under_cross_hair := some actionData.objectUnderCrosshair,
      gripped_object_id := some actionData.grippedObjectId }
    let mut action_data : GrabReleaseDelta := {}
    if actionData.releaseAction = true then
      action_data := { action_data with
        new_object_translation := some actionData.actionMeta.newObjectTranslation,
        new_object_id := some actionData.actionMeta.newObjectId,
        object_handle := some actionData.actionMeta.objectHandle,
        gripped_object_id := some actionData.actionMeta.grippedObjectId }
    else if actionData.grabAction = true then
      action_data := { action_data with
        gripped_object_id := some actionData.actionMeta.grippedObjectId }
    replay_data := { replay_data with action_data := some action_data }
  else
    replay_data := { replay_data with
      collision := some (← getKey "collision" data.collision) }
    replay_data := { replay_data with
      object_under_cross_hair := some (← getKey "objectUnderCrosshair" data.objectUnderCrosshair) }
    replay_data := { replay_data with
      nearest_object_id := some (← getKey "nearestObjectId" data.nearestObjectId) }
    replay_data := { replay_data with
      gripped_object_id := some (← getKey "grippedObjectId" data.grippedObjectId) }
  if let some ags := data.agentState then
    replay_data := { replay_data with
      agent_state := some { position := ags.position, rotation := ags.rotation,
                            sensor_data := ags.sensorData } }
    replay_data := { replay_data with
      object_states := some (get_object_states (← getKey "objectStates" data.objectStates)) }
  return replay_data

/-- Python `parse_replay_data_for_step_physics`. -/
def parse_replay_data_for_step_physics (data : StepData) : Py ActionRecord := do
  let mut replay_data : ActionRecord := {}
  replay_data := { replay_data with action := some "stepPhysics" }
  replay_data := { replay_data with
    object_under_cross_hair := some (← getKey "objectUnderCrosshair" data.objectUnderCrosshair) }
  if let some ags := data.agentState then
    replay_data := { replay_data with
      agent_state := some { position := ags.position, rotation := ags.rotation,
                            sensor_data := ags.sensorData } }
  replay_data := { replay_data with
    object_states := some (get_object_states (← getKey "objectStates" data.objectStates)) }
  return replay_data

/-- One object entry of the accumulated episode (`setEpisode` handling). -/
structure ObjectData where
  object_id : JVal
  object_template : JVal
  position : JVal
  rotation : JVal
  motion_type : JVal
  object_icon : JVal
  is_receptacle : JVal
deriving DecidableEq, Repr

/-- The accumulating `episode` dict of `convert_to_episode`: starts empty,
keys are added by `handle_step`.  `instruction` stores the
`instruction_text` of the single-key wrapper dict the code builds, and
`goals` stores its `object_receptacle_map` value. -/
structure Episode where
  episode_id : Option String := none
  scene_id : Option JVal := none
  start_position : Option JVal := none
  start_rotation : Option JVal := none
  objects : Option (List ObjectData) := none
  instruction : Option String := none
  goals : Option JVal := none
  reference_replay : Option Replay := none
deriving DecidableEq, Repr

/-- Python truthiness of `step.get(k)` for a string-valued key: present and
non-empty. -/
def truthyStr : Option String → Bool
  | none => false
  | some s => !(s = "")

/-- The object dict built for each index of `data["objects"]` in the
`setEpisode` branch of `handle_step`. -/
def object_data_of (o : ObjectJson) : ObjectData :=
  { object_id := o.objectId, object_template := o.objectHandle,
    position := o.position, rotation := o.rotation,
    motion_type := o.motionType, object_icon := o.objectIcon,
    is_receptacle := o.isReceptacle }

/-- The `object_receptacle_map` value: `data["task"]["goals"]["objectToReceptacleMap"]`
when `"goals"` is present, else the empty dict. -/
def object_receptacle_map_of : Option GoalsJson → JVal
  | some g => g.objectToReceptacleMap
  | none => JVal.emptyMap

/-- Python `is_viewer_step`.  Takes the decoded payload, which may be `None`
(`None.keys()` raises `AttributeError`); reads `data["step"]` only when
`data["type"] == "runStep"`. -/
def is_viewer_step (data : Option Step) : Py Bool := do
  let d ← match data with
          | some d => Except.ok d
          | none => Except.error PyError.attributeError
  match d.type_ with
  | some ty =>
      if ty = "runStep" then do
        let st ← getKey "step" d.step
        return (st = "viewer")
      else
        return false
  | none => return false

/-- Python `handle_step`.  The Python version mutates `episode` and the
module-global `instruction_list`; both are passed and returned explicitly
here.  The returned `Bool` is the finish flag (`True` exactly on a
`finishStep`-typed row).  A `None` payload raises `AttributeError` at
`step.get("event")`. -/
def handle_step (step? : Option Step) (episode : Episode) (unique_id : String)
    (timestamp : String) (instruction_list : List String) :
    Py (Episode × List String × Bool) := do
  let step ← match step? with
             | some s => Except.ok s
             | none => Except.error PyError.attributeError
  if truthyStr step.event = true then
    let ev ← getKey "event" step.event
    if ev = "setEpisode" then
      let stepData ← getKey "data" step.data
      let data ← getKey "episode" stepData.episode
      let episode2 : Episode :=
        { episode with
          episode_id := some unique_id,
          scene_id := some data.sceneID,
          start_position := some data.startState.position,
          start_rotation := some data.startState.rotation,
          objects := some (data.objects.map object_data_of),
          instruction := some data.task.instruction,
          goals := some (object_receptacle_map_of data.task.goals),
          reference_replay := some [] }
      return (episode2, instruction_list ++ [data.task.instruction], false)
    else if ev = "handleAction" then
      let stepData ← getKey "data" step.data
      let actionName ← getKey "action" stepData.action
      let d ← parse_replay_data_for_action actionName stepData
      let d2 := { d with timestamp := some timestamp }
      let rr ← getKey "reference_replay" episode.reference_replay
      return ({ episode with reference_replay := some (rr ++ [some d2]) },
              instruction_list, false)
    else if is_physics_step (some ev) = true then
      let stepData ← getKey "data" step.data
      let d ← parse_replay_data_for_step_physics stepData
      let d2 := { d with timestamp := some timestamp }
      let rr ← getKey "reference_replay" episode.reference_replay
      return ({ episode with reference_replay := some (rr ++ [some d2]) },
              instruction_list, false)
    else
      return (episode, instruction_list, false)
  else if truthyStr step.type_ = true then
    let ty ← getKey "type" step.type_
    if ty = "finishStep" then
      return (episode, instruction_list, true)
    else
      return (episode, instruction_list, false)
  else
    return (episode, instruction_list, false)

/-- Looking up `dd.get("action")` on a replay list element: on `None` the
attribute access itself raises `AttributeError`. -/
def dictGetAction : Option ActionRecord → Py (Option String)
  | none => Except.error PyError.attributeError
  | some d => Except.ok d.action

/-- Python `"".join(strs)` over a list that may hold `None`: raises
`TypeError` at a `None` element. -/
def joinOptStrings : List (Option String) → Py String
  | [] => Except.ok ""
  | some s :: rest => do
      let r ← joinOptStrings rest
      return s ++ r
  | none :: _ => Except.error PyError.typeError

/-- The diagnostic block of `post_process_episode` guarded by
`len(action_data_list) == 3`: it joins the actions of the run and subscripts
the merged record (`data["action"]`).  The `unique_action_combo_map` counter
and the prints have no observable effect and are not modelled; only the
fallible accesses are. -/
def postDiagnostics (action_data_list : Replay) (data : Option ActionRecord) :
    Py Unit := do
  if action_data_list.length = 3 then
    let actions ← action_data_list.mapM dictGetAction
    let _ ← joinOptStrings actions
    let d ← asRecord data
    let _ ← getKey "action" d.action
    return ()
  else
    return ()

/-- The inner `while` loop of `post_process_episode`:
`while i < len(reference_replay) and not is_physics_step(get_action(data)):
data = reference_replay[i + 1]; action_data_list.append(data); i += 1`.
Returns how many times `i` advanced, the final `data`, and the accumulated
`action_data_list`.  The first `fuel` argument bounds the iteration count
structurally; `reference_replay.length + 1` always suffices since `i`
strictly increases. -/
def gatherRun (rr : Replay) : Nat → Nat → Option ActionRecord → Replay →
    Py (Nat × Option ActionRecord × Replay)
  | 0, _, _, _ => Except.error PyError.outOfFuel
  | fuel + 1, i, data, acc =>
    if i < rr.length ∧ is_physics_step (get_action data) = false then
      match rr.get? (i + 1) with
      | some d =>
          match gatherRun rr fuel (i + 1) d (acc ++ [d]) with
          | Except.ok (k, dEnd, l) => Except.ok (k + 1, dEnd, l)
          | Except.error e => Except.error e
      | none => Except.error PyError.indexError
    else
      Except.ok (0, data, acc)

/-- The outer `while i < len(reference_replay)` loop of
`post_process_episode`, with the cursor `i` explicit and structural fuel
(each iteration advances `i` by at least one, so
`reference_replay.length + 1` iterations always suffice).  A non-physics
record at the cursor starts a run: the inner loop accumulates records
(including the terminating physics record, if any), the run is merged, and
the merged record (possibly `None`) is appended; a physics record at the
cursor is appended as is. -/
def postLoop (rr : Replay) : Nat → Nat → Py Replay
  | 0, _ => Except.error PyError.outOfFuel
  | fuel + 1, i =>
    if h : i < rr.length then
      let data := rr.get ⟨i, h⟩
      if is_physics_step (get_action data) = false then
        match gatherRun rr (rr.length + 1) i data [data] with
        | Except.error e => Except.error e
        | Except.ok (k, _dataEnd, action_data_list) =>
          match merge_replay_data_for_action action_data_list with
          | Except.error e => Except.error e
          | Except.ok data2 =>
            match postDiagnostics action_data_list data2 with
            | Except.error e => Except.error e
            | Except.ok _ =>
              match postLoop rr fuel (i + k + 1) with
              | Except.error e => Except.error e
              | Except.ok rest => Except.ok (data2 :: rest)
      else
        match postLoop rr fuel (i + 1) with
        | Except.error e => Except.error e
        | Except.ok rest => Except.ok (data :: rest)
    else
      Except.ok []

/-- Python `post_process_episode` (the run compactor), minus its prints. -/
def post_process_episode (reference_replay : Replay) : Py Replay :=
  postLoop reference_replay (reference_replay.length + 1) 0

/-- One CSV column: its raw text, and what `json.loads` would return on it
(`none` = the text is not valid JSON, so `json.loads` raises; `some none` =
the JSON literal `null`, which loads to Python `None`). -/
structure Col where
  raw : String
  json : Option (Option Step)
deriving DecidableEq, Repr

/-- One CSV row, as the list of its columns. -/
abbrev Row := List Col

/-- Python `column_to_json`. -/
def column_to_json : Option Col → Py (Option Step)
  | none => Except.ok none
  | some col =>
    match col.json with
    | some payload => Except.ok payload
    | none => Except.error PyError.jsonDecodeError

/-- Subscripting a row (`row[i]`): `IndexError` when the row is too short. -/
def getItem (row : Row) (i : Nat) : Py Col :=
  match row.get? i with
  | some c => Except.ok c
  | none => Except.error PyError.indexError

/-- The row loop of `convert_to_episode`.  `handle_step`'s returned finish
flag is assigned (`is_viewer_step_finished`) but never consulted, exactly as
in the source: the loop always continues to the next row. -/
def convertLoop : List Row → Episode → Bool → List String →
    Py (Episode × List String)
  | [], episode, _viewer_step, il => Except.ok (episode, il)
  | row :: rest, episode, viewer_step, il => do
      let unique_id ← getItem row 0
      let _step ← getItem row 1
      let timestamp ← getItem row 2
      let col3 ← getItem row 3
      let data ← column_to_json (some col3)
      let viewer_step2 ←
        if viewer_step = false then is_viewer_step data else pure viewer_step
      if viewer_step2 = true then
        match handle_step data episode unique_id.raw timestamp.raw il with
        | Except.error e => Except.error e
        | Except.ok (ep2, il2, _is_viewer_step_finished) =>
            convertLoop rest ep2 viewer_step2 il2
      else
        convertLoop rest episode viewer_step2 il

/-- Python `convert_to_episode`: run the row loop from an empty episode,
then replace `episode["reference_replay"]` (a `KeyError` when no
`setEpisode` event created it) by its compaction. -/
def convert_to_episode (rows : List Row) (instruction_list : List String) :
    Py (Episode × List String) := do
  let (episode, il) ← convertLoop rows {} false instruction_list
  let rr ← getKey "reference_replay" episode.reference_replay
  let rr2 ← post_process_episode rr
  return ({ episode with reference_replay := some rr2 }, il)

/-- The output dataset: the collected episodes and the deduplicated
instruction vocabulary (`list(set(instruction_list))`, here in first-seen
order). -/
structure Dataset where
  episodes : List Episode
  instruction_vocab : List String
deriving DecidableEq, Repr

/-- The file loop of `replay_to_episode`: one `convert_to_episode` per file,
appending each episode.  There is no exception handling, so the first
failing file aborts the whole loop. -/
def replayFilesLoop : List (List Row) → List Episode → List String →
    Py (List Episode × List String)
  | [], episodes, il => Except.ok (episodes, il)
  | file :: files, episodes, il =>
    match convert_to_episode file il with
    | Except.error e => Except.error e
    | Except.ok (episode, il2) => replayFilesLoop files (episodes ++ [episode]) il2

/-- Python `replay_to_episode`, minus the filesystem walk, prints, and the
JSON/gzip serialization: the batch over a list of already-read files. -/
def replay_to_episode (files : List (List Row)) : Py Dataset :=
  match replayFilesLoop files [] [] with
  | Except.error e => Except.error e
  | Except.ok (episodes, il) =>
    Except.ok { episodes := episodes, instruction_vocab := il.dedup }

/-- Success test for a `Py` computation (no exception raised). -/
def pyOk {α : Type} : Py α → Bool
  | Except.ok _ => true
  | Except.error _ => false

/-- The `reference_replay` of a conversion result, when it succeeded. -/
def replayOf : Py (Episode × List String) → Option Replay
  | Except.ok (ep, _) => ep.reference_replay
  | Except.error _ => none

/-- A CSV column holding plain (non-JSON) text. -/
def colS (s : String) : Col := { raw := s, json := none }

/-- A CSV column holding a JSON-encoded payload object. -/
def colJ (p : Step) : Col := { raw := "", json := some (some p) }

/-- A four-column CSV row `(row_id, step_kind, timestamp, payload)`. -/
def mkRow (id ts : String) (p : Step) : Row := [colS id, colS "step", colS ts, colJ p]

/-- A small concrete `setEpisode` payload body. -/
def mkEpisodeJson (scene instr : String) : EpisodeJson :=
  { sceneID := JVal.strV scene,
    startState := { position := JVal.numV 0, rotation := JVal.numV 1 },
    objects := [],
    task := { instruction := instr, goals := none } }

/-- A `setEpisode` event payload that also carries the viewer-stream marker
(`type == "runStep"`, `step == "viewer"`), as the first processed row of a
real log does. -/
def mkViewerSetStep (scene instr : String) : Step :=
  { type_ := some "runStep", step := some "viewer", event := some "setEpisode",
    data := some { episode := some (mkEpisodeJson scene instr) } }

/-- A `setEpisode` event payload without the viewer marker (for rows after
the stream has been identified). -/
def mkSetStep (scene instr : String) : Step :=
  { event := some "setEpisode",
    data := some { episode := some (mkEpisodeJson scene instr) } }

/-- A non-grab `handleAction` payload body, tagged by `n` so that distinct
rows are distinguishable. -/
def mkActData (act : String) (n : Int) : StepData :=
  { action := some act,
    collision := some (JVal.numV n),
    objectUnderCrosshair := some (JVal.numV (-1)),
    nearestObjectId := some (JVal.numV (-2)),
    grippedObjectId := some (JVal.numV (-3)),
    agentState := some { position := JVal.numV n, rotation := JVal.numV 0,
                         sensorData := JVal.null },
    objectStates := some [] }

/-- A `handleAction` event payload. -/
def mkActStep (act : String) (n : Int) : Step :=
  { event := some "handleAction", data := some (mkActData act n) }

/-- A physics-tick (`stepPhysics`) event payload. -/
def mkPhysStep (n : Int) : Step :=
  { event := some "stepPhysics",
    data := some { objectUnderCrosshair := some (JVal.numV n),
                   agentState := some { position := JVal.numV n, rotation := JVal.numV 0,
                                        sensorData := JVal.null },
                   objectStates := some [] } }

/-- The `finishStep`-typed payload that is supposed to end a log. -/
def finishStepPayload : Step := { type_ := some "finishStep" }

/-- A concrete non-grab action record (classifier shape). -/
def c1Act : ActionRecord :=
  { action := some "turnLeft", collision := some (JVal.numV 1),
    object_under_cross_hair := some (JVal.numV 2),
    nearest_object_id := some (JVal.numV 3),
    gripped_object_id := some (JVal.numV 4) }

/-- A concrete physics record (classifier shape). -/
def c1Phys : ActionRecord :=
  { action := some "stepPhysics", object_under_cross_hair := some (JVal.numV 5),
    object_states := some [] }

/-- What the compactor actually produces for `[c1Act, c1Phys]`: the physics
record with `action`, `collision`, `object_under_cross_hair` and
`nearest_object_id` overwritten from the action record. -/
def c1Merged : ActionRecord :=
  { c1Phys with
    action := some "turnLeft",
    collision := c1Act.collision,
    object_under_cross_hair := c1Act.object_under_cross_hair,
    nearest_object_id := c1Act.nearest_object_id }

/-- The five-row log of claim C2. -/
def c2rows : List Row :=
  [ mkRow "1" "t1" (mkViewerSetStep "sceneA" "put the apple on the table"),
    mkRow "2" "t2" (mkActStep "turnLeft" 2),
    mkRow "3" "t3" (mkActStep "turnLeft" 3),
    mkRow "4" "t4" (mkPhysStep 4),
    mkRow "5" "t5" finishStepPayload ]

/-- A minimal non-physics record: enough to start a run. -/
def c5Act : ActionRecord := { action := some "turnLeft" }

/-- A grab/release action record (classifier shape). -/
def c6Grab (g : Bool) : ActionRecord :=
  { action := some "grabReleaseObject", is_grab_action := some g,
    is_release_action := some (!g), object_under_cross_hair := some (JVal.numV 1),
    gripped_object_id := some (JVal.numV 5),
    action_data := some { gripped_object_id := some (JVal.numV 5) } }

/-- A physics record for the C6 runs. -/
def c6Phys : ActionRecord :=
  { action := some "stepPhysics", object_under_cross_hair := some JVal.null,
    object_states := some [] }

/-- A replay whose single run yields a merge list of length 3 headed by
`grabReleaseObject` (two grab records, then the physics boundary). -/
def c6replay3 : Replay := [some (c6Grab true), some (c6Grab false), some c6Phys]

/-- A non-grab action record for the long run of C6. -/
def c6A : ActionRecord :=
  { action := some "turnLeft", collision := some JVal.null,
    object_under_cross_hair := some JVal.null,
    nearest_object_id := some JVal.null }

/-- A replay whose single run yields a merge list of length 4 (three action
records, then the physics boundary). -/
def c6replay4 : Replay := [some c6A, some c6A, some c6A, some c6Phys]

/-- C7 batch: a well-formed single-row log file. -/
def c7good1 : List Row := [mkRow "1" "t1" (mkViewerSetStep "sceneA" "instr one")]

/-- C7 batch: another well-formed single-row log file. -/
def c7good3 : List Row := [mkRow "9" "t9" (mkViewerSetStep "sceneC" "instr three")]

/-- A column whose payload is not valid JSON. -/
def c7badCol : Col := { raw := "o_O", json := none }

/-- C7 batch: a log file whose only row has a malformed payload column. -/
def c7bad : List Row := [[colS "1", colS "step", colS "t", c7badCol]]

/-- The four-row log of claim C8: `finishStep` arrives second, followed by an
action row and a physics row. -/
def c8rows : List Row :=
  [ mkRow "1" "t1" (mkViewerSetStep "sceneA" "c8 instruction"),
    mkRow "2" "t2" finishStepPayload,
    mkRow "3" "t3" (mkActStep "turnLeft" 7),
    mkRow "4" "t4" (mkPhysStep 8) ]

/-- The three-row log of claim C9: `setEpisode`, one action, then a second
`setEpisode` with a different scene and row id. -/
def c9rows : List Row :=
  [ mkRow "1" "t1" (mkViewerSetStep "sceneA" "first instruction"),
    mkRow "2" "t2" (mkActStep "moveForward" 5),
    mkRow "3" "t3" (mkSetStep "sceneB" "second instruction") ]

/-- A step whose handling (with the viewer flag on) neither raises nor
touches `reference_replay`: its `event` is absent/empty or none of
`setEpisode` / `handleAction` / `stepPhysics`. -/
def benignStep (s : Step) : Bool :=
  if truthyStr s.event = true then
    match s.event with
    | some ev => !(ev = "setEpisode") && !(ev = "handleAction") && !(is_physics_step (some ev))
    | none => false
  else
    true

/-- A well-formed `handleAction` / `stepPhysics` step: handling it proceeds
past the classifier and reaches the `reference_replay` append. -/
def c10actionRow (s : Step) : Bool :=
  if truthyStr s.event = true then
    match s.event with
    | some ev =>
      if ev = "setEpisode" then false
      else if ev = "handleAction" then
        match s.data with
        | some sd =>
          match sd.action with
          | some a => pyOk (parse_replay_data_for_action a sd)
          | none => false
        | none => false
      else if is_physics_step (some ev) = true then
        match s.data with
        | some sd => pyOk (parse_replay_data_for_step_physics sd)
        | none => false
      else false
    | none => false
  else false

/-- The hypothesis of claim C10, as a check over the raw rows: every row is
readable (four columns, JSON payload object), the viewer test never raises,
and no `setEpisode` event occurs before the first well-formed
action/physics viewer row (if any); rows after that row are unconstrained,
since the `KeyError` fires there. -/
def c10check : List Row → Bool → Bool
  | [], _ => true
  | row :: rest, viewer_step =>
    match row.get? 0, row.get? 1, row.get? 2, row.get? 3 with
    | some _, some _, some _, some c3 =>
      match c3.json with
      | some (some s) =>
        if viewer_step = true then
          (if benignStep s = true then c10check rest true else c10actionRow s)
        else
          match is_viewer_step (some s) with
          | Except.error _ => false
          | Except.ok v =>
            if v = true then
              (if benignStep s = true then c10check rest true else c10actionRow s)
            else c10check rest false
      | _ => false
    | _, _, _, _ => false

/-- The single record the compactor produces for the C2 log: the physics
record of row 4 with `action` renamed to `turnLeftTwice` and `collision`
taken from the second `turnLeft` (row 3). -/
def c2Merged : ActionRecord :=
  { action := some "turnLeftTwice",
    object_under_cross_hair := some (JVal.numV 4),
    collision := some (JVal.numV 3),
    agent_state := some { position := JVal.numV 4, rotation := JVal.numV 0,
                          sensor_data := JVal.null },
    object_states := some [],
    timestamp := some "t4" }

/-- A `turnRight` action record carrying a recognizable collision value. -/
def c4TurnRight : ActionRecord :=
  { action := some "turnRight", collision := some (JVal.numV 9),
    object_under_cross_hair := some JVal.null,
    nearest_object_id := some JVal.null }

/-- The episode produced from `c7good1` (used to instantiate the batch-abort
theorem). -/
def c7Ep1 : Episode :=
  { episode_id := some "1", scene_id := some (JVal.strV "sceneA"),
    start_position := some (JVal.numV 0), start_rotation := some (JVal.numV 1),
    objects := some [], instruction := some "instr one",
    goals := some JVal.emptyMap, reference_replay := some [] }

/-- The episode produced from `c9rows`: everything reflects the *second*
`setEpisode` (row id 3, sceneB), and the replay is empty although an action
was appended between the two `setEpisode` events. -/
def c9Episode : Episode :=
  { episode_id := some "3", scene_id := some (JVal.strV "sceneB"),
    start_position := some (JVal.numV 0), start_rotation := some (JVal.numV 1),
    objects := some [], instruction := some "second instruction",
    goals := some JVal.emptyMap, reference_replay := some [] }

/-- A well-formed viewer-marked `handleAction` payload with no preceding
`setEpisode` (C10 witness). -/
def w10Step : Step :=
  { type_ := some "runStep", step := some "viewer",
    event := some "handleAction", data := some (mkActData "turnLeft" 3) }

/-- The single-row log of the C10 witness. -/
def w10rows : List Row := [mkRow "1" "t1" w10Step]

/-- The single record the compactor actually produces for the two-action run
`[c1Act, c4TurnRight]` followed by `c1Phys`: the physics record with the
composite action name and `collision` from the second action. -/
def c3RunMerged : ActionRecord :=
  { c1Phys with
    action := some "turnLeftturnRight",
    collision := some (JVal.numV 9) }

@[simp]
theorem py_bind_ok {α β : Type} (a : α) (f : α → Py β) :
    (Except.ok a >>= f : Py β) = f a := rfl

@[simp]
theorem py_bind_error {α β : Type} (e : PyError) (f : α → Py β) :
    ((Except.error e : Py α) >>= f) = Except.error e := rfl

@[simp]
theorem py_pure_eq {α : Type} (a : α) : (pure a : Py α) = Except.ok a := rfl

@[simp]
theorem py_throw_eq {α : Type} (e : PyError) : (throw e : Py α) = Except.error e := rfl

/-- When every record of the replay is a physics record, the outer loop
copies the suffix from the cursor on, unchanged. -/
theorem postLoop_all_physics (rr : Replay)
    (hphys : ∀ d ∈ rr, is_physics_step (get_action d) = true) :
    ∀ fuel i, rr.length - i < fuel → postLoop rr fuel i = Except.ok (rr.drop i) := by
  intro fuel
  induction fuel with
  | zero => intro i h; omega
  | succ n ih =>
    intro i h
    by_cases hi : i < rr.length
    · have hp := hphys _ (rr.get_mem i hi)
      have hp2 : is_physics_step (get_action rr[i]) = true := by simpa using hp
      rw [postLoop, dif_pos hi, if_neg (by simp [hp2]), ih (i + 1) (by omega)]
      simp [List.get_eq_getElem]
    · rw [postLoop, dif_neg hi, List.drop_eq_nil_of_le (by omega)]

/-- C1 (counterexample): a `stepPhysics` record immediately following an
action record does *not* appear in the compacted output — the run compactor
absorbs it into the merged record, whose `action` is the action's name.  The
claim that every physics record passes through unchanged as its own element
is therefore false. -/
theorem C1_counterexample :
    post_process_episode [some c1Act, some c1Phys] = Except.ok [some c1Merged] ∧
    some c1Phys ∉ [some c1Merged] ∧ c1Merged.action ≠ some "stepPhysics" :=
  ⟨rfl, by decide, by decide⟩

/-- gatherRun is independent of the exact fuel once the fuel exceeds the
number of remaining positions. -/
theorem gatherRun_fuel (rr : Replay) :
    ∀ fuel1 fuel2 i data acc, rr.length - i < fuel1 → rr.length - i < fuel2 →
      gatherRun rr fuel1 i data acc = gatherRun rr fuel2 i data acc := by
  intro fuel1
  induction fuel1 with
  | zero => intro fuel2 i data acc h1 h2; omega
  | succ f1 ih =>
    intro fuel2 i data acc h1 h2
    cases fuel2 with
    | zero => omega
    | succ f2 =>
      simp only [gatherRun]
      by_cases hcond : i < rr.length ∧ is_physics_step (get_action data) = false
      · rw [if_pos hcond, if_pos hcond]
        cases hget : rr.get? (i + 1) with
        | none => rfl
        | some d =>
          simp only []
          rw [ih f2 (i + 1) d (acc ++ [d]) (by omega) (by omega)]
      · rw [if_neg hcond, if_neg hcond]

/-- gatherRun never looks before its cursor: prepending a prefix and
shifting the cursor by its length changes nothing. -/
theorem gatherRun_shift (pre rr : Replay) :
    ∀ fuel i data acc,
      gatherRun (pre ++ rr) fuel (pre.length + i) data acc = gatherRun rr fuel i data acc := by
  intro fuel
  induction fuel with
  | zero => intro i data acc; rfl
  | succ f ih =>
    intro i data acc
    simp only [gatherRun]
    have hlen : pre.length + i < (pre ++ rr).length ↔ i < rr.length := by
      simp [List.length_append]
    by_cases hcond : i < rr.length ∧ is_physics_step (get_action data) = false
    · rw [if_pos ⟨hlen.mpr hcond.1, hcond.2⟩, if_pos hcond]
      have hget : (pre ++ rr).get? (pre.length + i + 1) = rr.get? (i + 1) := by
        rw [List.get?_append_right (by omega)]
        congr 1
        omega
      rw [hget]
      cases hget2 : rr.get? (i + 1) with
      | none => rfl
      | some d =>
        simp only []
        have harg : pre.length + i + 1 = pre.length + (i + 1) := by omega
        rw [harg, ih (i + 1) d (acc ++ [d])]
    · rw [if_neg (fun hc => hcond ⟨hlen.mp hc.1, hc.2⟩), if_neg hcond]

/-- postLoop is independent of the exact fuel once the fuel exceeds the
number of remaining positions. -/
theorem postLoop_fuel (rr : Replay) :
    ∀ fuel1 fuel2 i, rr.length - i < fuel1 → rr.length - i < fuel2 →
      postLoop rr fuel1 i = postLoop rr fuel2 i := by
  intro fuel1
  induction fuel1 with
  | zero => intro fuel2 i h1 h2; omega
  | succ f1 ih =>
    intro fuel2 i h1 h2
    cases fuel2 with
    | zero => omega
    | succ f2 =>
      simp only [postLoop]
      by_cases hi : i < rr.length
      · rw [dif_pos hi, dif_pos hi]
        by_cases hphys : is_physics_step (get_action (rr.get ⟨i, hi⟩)) = false
        · rw [if_pos hphys, if_pos hphys]
          cases hg : gatherRun rr (rr.length + 1) i (rr.get ⟨i, hi⟩) [rr.get ⟨i, hi⟩] with
          | error e => rfl
          | ok t =>
            obtain ⟨k, dEnd, lst⟩ := t
            simp only []
            cases hm : merge_replay_data_for_action lst with
            | error e => rfl
            | ok m =>
              simp only []
              cases hdg : postDiagnostics lst m with
              | error e => rfl
              | ok u =>
                simp only []
                rw [ih f2 (i + k + 1) (by omega) (by omega)]
        · rw [if_neg hphys, if_neg hphys]
          rw [ih f2 (i + 1) (by omega) (by omega)]
      · rw [dif_neg hi, dif_neg hi]

/-- postLoop never looks before its cursor: prepending a prefix and shifting
the cursor by its length changes nothing. -/
theorem postLoop_shift (pre rr : Replay) :
    ∀ fuel i, postLoop (pre ++ rr) fuel (pre.length + i) = postLoop rr fuel i := by
  intro fuel
  induction fuel with
  | zero => intro i; rfl
  | succ f ih =>
    intro i
    simp only [postLoop]
    by_cases hi : i < rr.length
    · have hplen : pre.length + i < (pre ++ rr).length := by
        simp only [List.length_append]
        omega
      rw [dif_pos hplen, dif_pos hi]
      have hdata : (pre ++ rr).get ⟨pre.length + i, hplen⟩ = rr.get ⟨i, hi⟩ := by
        rw [List.get_append_right pre rr (by omega)]
        · congr 1
          exact Fin.ext (by simp)
        · omega
      rw [hdata]
      by_cases hphys : is_physics_step (get_action (rr.get ⟨i, hi⟩)) = false
      · rw [if_pos hphys, if_pos hphys]
        have hgr : gatherRun (pre ++ rr) ((pre ++ rr).length + 1) (pre.length + i)
              (rr.get ⟨i, hi⟩) [rr.get ⟨i, hi⟩] =
            gatherRun rr (rr.length + 1) i (rr.get ⟨i, hi⟩) [rr.get ⟨i, hi⟩] := by
          rw [gatherRun_shift]
          exact gatherRun_fuel rr _ _ i _ _
            (by simp only [List.length_append]; omega) (by omega)
        rw [hgr]
        cases hg : gatherRun rr (rr.length + 1) i (rr.get ⟨i, hi⟩) [rr.get ⟨i, hi⟩] with
        | error e => rfl
        | ok t =>
          obtain ⟨k, dEnd, lst⟩ := t
          simp only []
          cases hm : merge_replay_data_for_action lst with
          | error e => rfl
          | ok m =>
            simp only []
            cases hdg : postDiagnostics lst m with
            | error e => rfl
            | ok u =>
              simp only []
              have harg : pre.length + i + k + 1 = pre.length + (i + k + 1) := by omega
              rw [harg, ih (i + k + 1)]
      · rw [if_neg hphys, if_neg hphys]
        have harg : pre.length + i + 1 = pre.length + (i + 1) := by omega
        rw [harg, ih (i + 1)]
    · have hplen : ¬ pre.length + i < (pre ++ rr).length := by
        simp only [List.length_append]
        omega
      rw [dif_neg hplen, dif_neg hi]

/-- The inner loop, started on a non-physics record whose following records
are the non-physics `mid` and then the physics record `p`, gathers exactly
`mid` and `p` (advancing `mid.length + 1` positions) and stops. -/
theorem gatherRun_run (rr : Replay) (p : Option ActionRecord)
    (hp : is_physics_step (get_action p) = true) :
    ∀ (mid : Replay) (tail : Replay) (fuel i : Nat) (data : Option ActionRecord) (acc : Replay),
      rr.drop (i + 1) = mid ++ p :: tail →
      i < rr.length →
      is_physics_step (get_action data) = false →
      (∀ d ∈ mid, is_physics_step (get_action d) = false) →
      mid.length + 2 ≤ fuel →
      gatherRun rr fuel i data acc =
        Except.ok (mid.length + 1, p, acc ++ mid ++ [p]) := by
  intro mid
  induction mid with
  | nil =>
    intro tail fuel i data acc hdrop hi hdata _ hfuel
    obtain ⟨f, rfl⟩ : ∃ f, fuel = f + 2 := ⟨fuel - 2, by omega⟩
    have hget : rr.get? (i + 1) = some p := by
      have := List.get?_drop rr (i + 1) 0
      rw [hdrop] at this
      simpa using this.symm
    rw [gatherRun, if_pos ⟨hi, hdata⟩, hget]
    simp only []
    rw [gatherRun, if_neg (by simp [hp])]
    simp
  | cons m0 mid' ih =>
    intro tail fuel i data acc hdrop hi hdata hmid hfuel
    obtain ⟨f, rfl⟩ : ∃ f, fuel = f + 1 := ⟨fuel - 1, by omega⟩
    have hget : rr.get? (i + 1) = some m0 := by
      have := List.get?_drop rr (i + 1) 0
      rw [hdrop] at this
      simpa using this.symm
    have hdrop2 : rr.drop (i + 1 + 1) = mid' ++ p :: tail := by
      have := List.drop_drop 1 (i + 1) rr
      rw [hdrop] at this
      simpa [Nat.add_comm] using this.symm
    have hid : i + 1 < rr.length := by
      have hlen := congrArg List.length hdrop
      simp [List.length_drop] at hlen
      omega
    rw [gatherRun, if_pos ⟨hi, hdata⟩, hget]
    simp only []
    rw [ih tail f (i + 1) m0 (acc ++ [m0]) hdrop2 hid
      (hmid m0 (List.mem_cons_self m0 mid')) (fun d hd => hmid d (List.mem_cons_of_mem m0 hd))
      (by simpa using hfuel)]
    simp [List.append_assoc]

/-- Reading position zero of a cons cell. -/
theorem get_zero_cons (a : Option ActionRecord) (l : Replay) (h : 0 < (a :: l).length) :
    (a :: l).get ⟨0, h⟩ = a := rfl

/-- First compaction law: a physics record at the head of the replay passes
through unchanged as the next output element, and compaction continues
independently on the remainder. -/
theorem post_process_cons_physics (p : Option ActionRecord) (rest : Replay)
    (hp : is_physics_step (get_action p) = true) :
    post_process_episode (p :: rest) =
      (post_process_episode rest).map (fun out => p :: out) := by
  have hs := postLoop_shift [p] rest (rest.length + 1) 0
  simp only [List.singleton_append, List.length_singleton, Nat.add_zero] at hs
  unfold post_process_episode
  rw [show (p :: rest).length + 1 = (rest.length + 1) + 1 from by simp]
  rw [postLoop, dif_pos (by simp : 0 < (p :: rest).length)]
  simp only [List.get_cons_zero]
  rw [if_neg (by simp [hp])]
  simp only [Nat.zero_add]
  rw [hs]
  cases postLoop rest (rest.length + 1) 0 with
  | error e => rfl
  | ok out => rfl

/-- Second compaction law: a nonempty run of non-physics records terminated
by a physics record is replaced, together with that physics record, by the
single result of merging the list run-plus-physics (after the diagnostics
accesses); compaction continues independently on the remainder. -/
theorem post_process_run_physics (run : Replay) (p : Option ActionRecord) (rest : Replay)
    (hne : run ≠ []) (hrun : ∀ d ∈ run, is_physics_step (get_action d) = false)
    (hp : is_physics_step (get_action p) = true) :
    post_process_episode (run ++ p :: rest) =
      (do
        let m ← merge_replay_data_for_action (run ++ [p])
        postDiagnostics (run ++ [p]) m
        let out ← post_process_episode rest
        pure (m :: out)) := by
  obtain ⟨d0, run', rfl⟩ : ∃ d0 run', run = d0 :: run' := by
    cases run with
    | nil => exact absurd rfl hne
    | cons a b => exact ⟨a, b, rfl⟩
  have hd0 : is_physics_step (get_action d0) = false := hrun d0 (by simp)
  have hF : (d0 :: (run' ++ p :: rest)).length = run'.length + rest.length + 2 := by
    simp [List.length_append]
    omega
  have hgather : gatherRun (d0 :: (run' ++ p :: rest))
      ((d0 :: (run' ++ p :: rest)).length + 1) 0 d0 [d0] =
      Except.ok (run'.length + 1, p, [d0] ++ run' ++ [p]) := by
    apply gatherRun_run _ p hp run' rest _ 0 d0 [d0]
    · simp
    · simp
    · exact hd0
    · intro d hd
      exact hrun d (by simp [hd])
    · rw [hF]
      omega
  have hlist : [d0] ++ run' ++ [p] = d0 :: (run' ++ [p]) := by simp
  simp only [List.cons_append]
  unfold post_process_episode
  rw [postLoop, dif_pos (by simp : 0 < (d0 :: (run' ++ p :: rest)).length)]
  rw [get_zero_cons]
  rw [if_pos hd0, hgather]
  simp only []
  rw [hlist]
  cases hm : merge_replay_data_for_action (d0 :: (run' ++ [p])) with
  | error e => rfl
  | ok m =>
    simp only [py_bind_ok]
    cases hdg : postDiagnostics (d0 :: (run' ++ [p])) m with
    | error e => rfl
    | ok u =>
      simp only [py_bind_ok]
      have hshift2 : postLoop (d0 :: (run' ++ p :: rest))
          ((d0 :: (run' ++ p :: rest)).length) (0 + (run'.length + 1) + 1) =
          postLoop rest ((d0 :: (run' ++ p :: rest)).length) 0 := by
        have h := postLoop_shift (d0 :: (run' ++ [p])) rest
          ((d0 :: (run' ++ p :: rest)).length) 0
        rw [show (d0 :: (run' ++ [p])) ++ rest = d0 :: (run' ++ p :: rest) from by simp] at h
        rw [show (d0 :: (run' ++ [p])).length + 0 = 0 + (run'.length + 1) + 1 from by
          simp only [List.length_cons, List.length_append, List.length_singleton,
            List.length_nil]
          omega] at h
        exact h
      rw [hshift2]
      rw [postLoop_fuel rest ((d0 :: (run' ++ p :: rest)).length) (rest.length + 1) 0
        (by rw [hF]; omega) (by omega)]
      cases postLoop rest (rest.length + 1) 0 with
      | error e => rfl
      | ok out => rfl

/-- C1 (amended): the two laws that determine where physics records appear
in the compacted output, over all replays.  (1) A physics record at the head
of the replay (hence any physics record preceded only by physics records)
passes through unchanged as the next output element, and compaction
continues independently on the remainder.  (2) A nonempty run of non-physics
records followed by a physics record is replaced, together with that physics
record, by the single result of merging the run-plus-physics list — the
overwritten physics record for merge lists of length 2 or 3, a fatal exit
for a grab-headed length-3 list, and a null record for longer lists — so a
physics record terminating a run never appears as its own element.  (3) As a
consequence of (1), a replay consisting only of physics records passes
through unchanged. -/
theorem C1_amended :
    (∀ (p : Option ActionRecord) (rest : Replay),
        is_physics_step (get_action p) = true →
        post_process_episode (p :: rest) =
          (post_process_episode rest).map (fun out => p :: out)) ∧
    (∀ (run : Replay) (p : Option ActionRecord) (rest : Replay),
        run ≠ [] → (∀ d ∈ run, is_physics_step (get_action d) = false) →
        is_physics_step (get_action p) = true →
        post_process_episode (run ++ p :: rest) =
          (do
            let m ← merge_replay_data_for_action (run ++ [p])
            postDiagnostics (run ++ [p]) m
            let out ← post_process_episode rest
            pure (m :: out))) ∧
    (∀ rr : Replay, (∀ d ∈ rr, is_physics_step (get_action d) = true) →
        post_process_episode rr = Except.ok rr) :=
  ⟨fun p rest hp => post_process_cons_physics p rest hp,
   fun run p rest hne hrun hp => post_process_run_physics run p rest hne hrun hp,
   fun rr h => by
     have := postLoop_all_physics rr h (rr.length + 1) 0 (by omega)
     simpa [post_process_episode] using this⟩

/-- C1 (witness): the three conjuncts of the amended statement at concrete
replays. -/
theorem C1_amended_witness :
    post_process_episode [some c1Phys, some c1Act, some c1Phys] =
      (post_process_episode [some c1Act, some c1Phys]).map
        (fun out => some c1Phys :: out) ∧
    post_process_episode [some c1Act, some c1Phys] =
      (do
        let m ← merge_replay_data_for_action ([some c1Act] ++ [some c1Phys])
        postDiagnostics ([some c1Act] ++ [some c1Phys]) m
        let out ← post_process_episode ([] : Replay)
        pure (m :: out)) ∧
    post_process_episode [some c1Phys, some c1Phys] =
      Except.ok [some c1Phys, some c1Phys] :=
  ⟨C1_amended.1 (some c1Phys) [some c1Act, some c1Phys] (by decide),
   C1_amended.2.1 [some c1Act] (some c1Phys) [] (by decide) (by decide) (by decide),
   C1_amended.2.2 [some c1Phys, some c1Phys] (by decide)⟩

/-- C2 (counterexample): on the five-row input of the claim the produced
`reference_replay` has length 1, not 2 — there is no separate physics
element. -/
theorem C2_counterexample :
    (replayOf (convert_to_episode c2rows [])).map List.length = some 1 := rfl

/-- C2 (amended): the five-row input produces a `reference_replay` of length
exactly 1: a single record named `turnLeftTwice`, which is the physics
record of row 4 with its `action` overwritten by the composite name and its
`collision` taken from the second `turnLeft` row. -/
theorem C2_fixed :
    replayOf (convert_to_episode c2rows []) = some [some c2Merged] ∧
    c2Merged.action = some "turnLeftTwice" := ⟨rfl, rfl⟩

/-- C3 (counterexample): a run of exactly two action records, in the
program, never exhibits the claimed two-element merge behavior.  Followed by
its physics boundary the two actions yield a *three*-element merge list, so
the output record carries the composite name (here `turnLeftturnRight`, not
`a0.action = turnLeft`), is based on the physics record rather than on `a1`
(its `object_under_cross_hair` is the physics record's, not `a0`'s, and its
`object_states` are not `a1`'s), refuting the claim as stated; with no
trailing physics record such a run instead raises `IndexError` (see C5). -/
theorem C3_counterexample :
    post_process_episode [some c1Act, some c4TurnRight, some c1Phys] =
      Except.ok [some c3RunMerged] ∧
    c3RunMerged.action ≠ c1Act.action ∧
    c3RunMerged.object_under_cross_hair ≠ c1Act.object_under_cross_hair ∧
    c3RunMerged.object_states ≠ c4TurnRight.object_states :=
  ⟨rfl, by decide, by decide, by decide⟩

/-- C3 (amended): re-scoped from runs to merge lists, as in C4.  Merging a
two-element list — which the compactor builds from a run of ONE action
record plus its terminating physics record — yields the later record with
`action` overwritten by the first record's action; for `grabReleaseObject`
the grab fields (`action_data`, `is_grab_action`, `is_release_action`,
`object_under_cross_hair`, `gripped_object_id`) are overwritten from the
first record, otherwise `collision`, `object_under_cross_hair` and
`nearest_object_id` are; every other field of the later record is retained
unchanged.  The hypotheses require the fields being copied to be present on
the first record, as they are on every classifier-produced action record of
the corresponding kind (Python would raise a `KeyError` otherwise). -/
theorem C3_merge_pair (a0 a1 : ActionRecord) (act : String)
    (ha : a0.action = some act)
    (hf : if act = "grabReleaseObject"
          then a0.action_data.isSome = true ∧ a0.is_grab_action.isSome = true ∧
               a0.is_release_action.isSome = true ∧
               a0.object_under_cross_hair.isSome = true ∧ a0.gripped_object_id.isSome = true
          else a0.collision.isSome = true ∧ a0.object_under_cross_hair.isSome = true ∧
               a0.nearest_object_id.isSome = true) :
    merge_replay_data_for_action [some a0, some a1] = Except.ok (some (
      if act = "grabReleaseObject" then
        { a1 with
          action := some act,
          action_data := a0.action_data,
          is_grab_action := a0.is_grab_action,
          is_release_action := a0.is_release_action,
          object_under_cross_hair := a0.object_under_cross_hair,
          gripped_object_id := a0.gripped_object_id }
      else
        { a1 with
          action := some act,
          collision := a0.collision,
          object_under_cross_hair := a0.object_under_cross_hair,
          nearest_object_id := a0.nearest_object_id })) := by
  by_cases hg : act = "grabReleaseObject"
  · subst hg
    simp only [if_true] at hf ⊢
    obtain ⟨h1, h2, h3, h4, h5⟩ := hf
    obtain ⟨v1, hv1⟩ := Option.isSome_iff_exists.mp h1
    obtain ⟨v2, hv2⟩ := Option.isSome_iff_exists.mp h2
    obtain ⟨v3, hv3⟩ := Option.isSome_iff_exists.mp h3
    obtain ⟨v4, hv4⟩ := Option.isSome_iff_exists.mp h4
    obtain ⟨v5, hv5⟩ := Option.isSome_iff_exists.mp h5
    simp [merge_replay_data_for_action, asRecord, getKey, ha, hv1, hv2, hv3, hv4, hv5]
  · simp only [hg, if_false] at hf ⊢
    obtain ⟨h1, h2, h3⟩ := hf
    obtain ⟨v1, hv1⟩ := Option.isSome_iff_exists.mp h1
    obtain ⟨v2, hv2⟩ := Option.isSome_iff_exists.mp h2
    obtain ⟨v3, hv3⟩ := Option.isSome_iff_exists.mp h3
    simp [merge_replay_data_for_action, asRecord, getKey, ha, hg, hv1, hv2, hv3]

/-- C3 (witness): the two-element merge at concrete records, once per
branch. -/
theorem C3_witness :
    merge_replay_data_for_action [some c1Act, some c1Phys] =
      Except.ok (some
        { c1Phys with
          action := some "turnLeft",
          collision := c1Act.collision,
          object_under_cross_hair := c1Act.object_under_cross_hair,
          nearest_object_id := c1Act.nearest_object_id }) ∧
    merge_replay_data_for_action [some (c6Grab true), some c1Phys] =
      Except.ok (some
        { c1Phys with
          action := some "grabReleaseObject",
          action_data := (c6Grab true).action_data,
          is_grab_action := (c6Grab true).is_grab_action,
          is_release_action := (c6Grab true).is_release_action,
          object_under_cross_hair := (c6Grab true).object_under_cross_hair,
          gripped_object_id := (c6Grab true).gripped_object_id }) := by
  constructor
  · have h := C3_merge_pair c1Act c1Phys "turnLeft" rfl (by decide)
    simpa using h
  · have h := C3_merge_pair (c6Grab true) c1Phys "grabReleaseObject" rfl (by decide)
    simpa using h

/-- C4 (counterexample): for the run `[turnLeft, turnRight, turnRight]` the
code's composite name is the plain concatenation `turnLeftturnRight`
(`"{}{}".format` performs no capitalization), not the claim's
`turnLeftTurnRight`. -/
theorem C4_counterexample :
    merge_replay_data_for_action [some c1Act, some c4TurnRight, some c1Phys] =
      Except.ok (some
        { c1Phys with
          action := some "turnLeftturnRight",
          collision := some (JVal.numV 9) }) ∧
    ("turnLeftturnRight" : String) ≠ "turnLeftTurnRight" := ⟨rfl, by decide⟩

/-- C4 (amended): merging a three-element list whose first action is not
`grabReleaseObject` yields the last record with `action` overwritten by
`a0.action ++ "Twice"` when the first two actions agree and by the plain
concatenation `a0.action ++ a1.action` (no capitalization) when they differ,
and with `collision` overwritten by `a1.collision`.  The hypotheses require
the `action` keys of the first two records and the `collision` key of the
second to be present, as Python would raise a `KeyError` otherwise. -/
theorem C4_merge_triple (a0 a1 a2 : ActionRecord) (act0 act1 : String)
    (h0 : a0.action = some act0) (h1 : a1.action = some act1)
    (hg : act0 ≠ "grabReleaseObject") (hc : a1.collision.isSome = true) :
    merge_replay_data_for_action [some a0, some a1, some a2] = Except.ok (some
      { a2 with
        action := some (if act0 = act1 then act0 ++ "Twice" else act0 ++ act1),
        collision := a1.collision }) := by
  obtain ⟨c, hcv⟩ := Option.isSome_iff_exists.mp hc
  by_cases he : act0 = act1
  · subst he
    simp [merge_replay_data_for_action, asRecord, getKey, h0, h1, hg, hcv]
  · simp [merge_replay_data_for_action, asRecord, getKey, h0, h1, he, hg, hcv]

/-- C4 (witness): the three-element merge at the records of the claim's own
example, producing `turnLeftturnRight`. -/
theorem C4_witness :
    merge_replay_data_for_action [some c1Act, some c4TurnRight, some c1Phys] =
      Except.ok (some
        { c1Phys with
          action := some "turnLeftturnRight",
          collision := some (JVal.numV 9) }) := by
  have h := C4_merge_triple c1Act c4TurnRight c1Phys "turnLeft" "turnRight"
    rfl rfl (by decide) rfl
  simpa using h

/-- C5 (code bug): a replay ending in a non-physics record makes the inner
loop read `reference_replay[i + 1]` one past the end: the compactor raises
`IndexError` instead of merging the final run. -/
theorem C5_failing :
    post_process_episode [some c5Act] = Except.error PyError.indexError := rfl

/-- C6 (counterexample): a merge list of length 4 (a run of three action
records plus its physics boundary) does not fail fatally — the merge
returns `None` and the compactor silently appends it: the output is the
single null record `[none]`, with no error. -/
theorem C6_counterexample :
    post_process_episode c6replay4 = Except.ok [none] := rfl

/-- C6 (amended): a merge list of length 3 headed by `grabReleaseObject`
does abort the whole run with `sys.exit(1)`, but a merge list longer than 3
does not fail at all: `merge_replay_data_for_action` returns `None`, which
the compactor appends to the output as a null record. -/
theorem C6_amended :
    (∀ (a0 a1 a2 : ActionRecord) (act1 : String),
        a0.action = some "grabReleaseObject" → a1.action = some act1 →
        merge_replay_data_for_action [some a0, some a1, some a2] =
          Except.error (PyError.systemExit 1)) ∧
    (∀ (a0 : ActionRecord) (act0 : String) (x1 x2 x3 : Option ActionRecord) (rest : Replay),
        a0.action = some act0 →
        merge_replay_data_for_action (some a0 :: x1 :: x2 :: x3 :: rest) =
          Except.ok none) ∧
    post_process_episode c6replay3 = Except.error (PyError.systemExit 1) := by
  refine ⟨?_, ?_, rfl⟩
  · intro a0 a1 a2 act1 h0 h1
    simp [merge_replay_data_for_action, asRecord, getKey, h0, h1]
  · intro a0 act0 x1 x2 x3 rest h0
    simp [merge_replay_data_for_action, asRecord, getKey, h0]

/-- C6 (witness): the amended statement at the concrete C6 runs. -/
theorem C6_witness :
    merge_replay_data_for_action c6replay3 = Except.error (PyError.systemExit 1) ∧
    merge_replay_data_for_action c6replay4 = Except.ok none :=
  ⟨C6_amended.1 (c6Grab true) (c6Grab false) c6Phys "grabReleaseObject" rfl rfl,
   C6_amended.2.1 c6A "turnLeft" (some c6A) (some c6A) (some c6Phys) [] rfl⟩

/-- Splitting the batch loop over an append of file lists. -/
theorem replayFilesLoop_append (fs1 fs2 : List (List Row)) (eps : List Episode)
    (il : List String) :
    replayFilesLoop (fs1 ++ fs2) eps il =
      match replayFilesLoop fs1 eps il with
      | Except.ok (eps2, il2) => replayFilesLoop fs2 eps2 il2
      | Except.error e => Except.error e := by
  induction fs1 generalizing eps il with
  | nil => simp [replayFilesLoop]
  | cons f fs ih =>
    simp only [List.cons_append, replayFilesLoop]
    cases hconv : convert_to_episode f il with
    | error e => rfl
    | ok p =>
      obtain ⟨ep, il2⟩ := p
      exact ih (eps ++ [ep]) il2

/-- C7 (counterexample): reader errors are not file-local — a batch of three
files whose second file has a malformed payload column aborts entirely with
the decode error, producing no dataset, whereas the same batch without the
bad file yields 2 episodes. -/
theorem C7_counterexample :
    replay_to_episode [c7good1, c7bad, c7good3] = Except.error PyError.jsonDecodeError ∧
    (replay_to_episode [c7good1, c7good3]).map (fun d => d.episodes.length) =
      Except.ok 2 := ⟨rfl, rfl⟩

/-- C7 (amended): `replay_to_episode` has no per-file error handling: if the
files before `f` convert successfully and `f` fails with any error, the
whole batch fails with that error, whatever files follow. -/
theorem C7_batch_abort (pre post : List (List Row)) (f : List Row) (e : PyError)
    (eps : List Episode) (il : List String)
    (h1 : replayFilesLoop pre [] [] = Except.ok (eps, il))
    (h2 : convert_to_episode f il = Except.error e) :
    replay_to_episode (pre ++ f :: post) = Except.error e := by
  unfold replay_to_episode
  rw [replayFilesLoop_append, h1]
  simp only [replayFilesLoop, h2]

/-- C7 (witness): the batch-abort statement at the concrete three-file
batch. -/
theorem C7_batch_abort_witness :
    replay_to_episode [c7good1, c7bad, c7good3] = Except.error PyError.jsonDecodeError :=
  C7_batch_abort [c7good1] [c7good3] c7bad PyError.jsonDecodeError [c7Ep1] ["instr one"]
    rfl rfl

/-- C8 (code bug): `handle_step`'s finish flag is assigned to the unused
variable `is_viewer_step_finished` and the row loop never breaks, so the
`handleAction` and `stepPhysics` rows *after* the `finishStep` row still
contribute to the episode: the compacted replay of `c8rows` has one record
where stopping at `finishStep` would leave it empty. -/
theorem C8_divergence :
    (replayOf (convert_to_episode c8rows [])).map List.length = some 1 := rfl

/-- C9 (counterexample): a second `setEpisode` event overwrites
`episode_id`, `scene_id`, `objects` and resets `reference_replay` to empty:
converting `c9rows` (setEpisode id 1 / sceneA, one action, setEpisode id 3 /
sceneB) yields an episode whose id is `"3"`, whose scene is `sceneB`, and
whose replay is empty although an action record had been appended. -/
theorem C9_counterexample :
    convert_to_episode c9rows [] =
      Except.ok (c9Episode, ["first instruction", "second instruction"]) ∧
    c9Episode.episode_id ≠ some "1" ∧ c9Episode.scene_id ≠ some (JVal.strV "sceneA") ∧
    c9Episode.reference_replay = some [] :=
  ⟨rfl, by decide, by decide, rfl⟩

/-- C9 (amended): every `setEpisode` event (not only the first)
reinitializes the whole episode: the result of handling it is independent of
the episode accumulated so far — ids, scene, objects, instruction and goals
come from this event, and `reference_replay` is reset to the empty list. -/
theorem C9_amended (s : Step) (sd : StepData) (ej : EpisodeJson) (ep : Episode)
    (uid ts : String) (il : List String)
    (hev : s.event = some "setEpisode") (hd : s.data = some sd)
    (hej : sd.episode = some ej) :
    handle_step (some s) ep uid ts il =
      Except.ok
        ({ episode_id := some uid,
           scene_id := some ej.sceneID,
           start_position := some ej.startState.position,
           start_rotation := some ej.startState.rotation,
           objects := some (ej.objects.map object_data_of),
           instruction := some ej.task.instruction,
           goals := some (object_receptacle_map_of ej.task.goals),
           reference_replay := some [] },
         il ++ [ej.task.instruction], false) := by
  simp [handle_step, truthyStr, getKey, hev, hd, hej]

/-- C9 (witness): handling the second `setEpisode` of `c9rows` on top of an
already-populated episode yields exactly `c9Episode`. -/
theorem C9_amended_witness :
    handle_step (some (mkSetStep "sceneB" "second instruction")) c7Ep1 "3" "t3"
      ["first instruction"] =
      Except.ok (c9Episode, ["first instruction", "second instruction"], false) :=
  C9_amended (mkSetStep "sceneB" "second instruction")
    { episode := some (mkEpisodeJson "sceneB" "second instruction") }
    (mkEpisodeJson "sceneB" "second instruction") c7Ep1 "3" "t3" ["first instruction"]
    rfl rfl rfl

/-- A truthy optional string is present. -/
theorem truthy_exists {o : Option String} (h : truthyStr o = true) :
    ∃ s, o = some s := by
  cases o with
  | none => simp [truthyStr] at h
  | some s => exact ⟨s, rfl⟩

/-- Handling a benign step returns the episode and instruction list
unchanged (the returned flag is `true` exactly on `finishStep`). -/
theorem handle_step_benign (s : Step) (hb : benignStep s = true)
    (ep : Episode) (uid ts : String) (il : List String) :
    ∃ b, handle_step (some s) ep uid ts il = Except.ok (ep, il, b) := by
  by_cases he : truthyStr s.event = true
  · obtain ⟨ev, hev⟩ := truthy_exists he
    unfold benignStep at hb
    rw [if_pos he, hev] at hb
    rw [hev] at he
    simp only [Bool.and_eq_true, Bool.not_eq_true', decide_eq_false_iff_not] at hb
    refine ⟨false, ?_⟩
    simp [handle_step, he, hev, getKey, hb.1.1, hb.1.2, hb.2]
  · have he2 : truthyStr s.event = false := by
      cases hx : truthyStr s.event
      · rfl
      · exact absurd hx he
    by_cases ht : truthyStr s.type_ = true
    · obtain ⟨ty, hty⟩ := truthy_exists ht
      rw [hty] at ht
      by_cases hfin : ty = "finishStep"
      · subst hfin
        exact ⟨true, by simp [handle_step, he2, ht, hty, getKey]⟩
      · exact ⟨false, by simp [handle_step, he2, ht, hty, hfin, getKey]⟩
    · have ht2 : truthyStr s.type_ = false := by
        cases hx : truthyStr s.type_
        · rfl
        · exact absurd hx ht
      exact ⟨false, by simp [handle_step, he2, ht2]⟩

/-- Handling a well-formed action/physics step while the episode has no
`reference_replay` key raises exactly `KeyError "reference_replay")`. -/
theorem handle_step_action_noreplay (s : Step) (ha : c10actionRow s = true)
    (ep : Episode) (hrr : ep.reference_replay = none)
    (uid ts : String) (il : List String) :
    handle_step (some s) ep uid ts il =
      Except.error (PyError.keyError "reference_replay") := by
  unfold c10actionRow at ha
  by_cases he : truthyStr s.event = true
  swap
  · rw [if_neg he] at ha
    simp at ha
  obtain ⟨ev, hev⟩ := truthy_exists he
  rw [if_pos he, hev] at ha
  simp only [] at ha
  rw [hev] at he
  by_cases h1 : ev = "setEpisode"
  · rw [if_pos h1] at ha
    simp at ha
  rw [if_neg h1] at ha
  by_cases h2 : ev = "handleAction"
  · rw [if_pos h2] at ha
    rcases hd : s.data with _ | sd
    · rw [hd] at ha
      simp at ha
    rw [hd] at ha
    simp only [] at ha
    rcases hact : sd.action with _ | a
    · rw [hact] at ha
      simp at ha
    rw [hact] at ha
    simp only [] at ha
    rcases hp : parse_replay_data_for_action a sd with e | d
    · rw [hp] at ha
      simp [pyOk] at ha
    subst h2
    simp [handle_step, he, hev, getKey, hd, hact, hp, hrr]
  · rw [if_neg h2] at ha
    by_cases h3 : is_physics_step (some ev) = true
    · rw [if_pos h3] at ha
      rcases hd : s.data with _ | sd
      · rw [hd] at ha
        simp at ha
      rw [hd] at ha
      simp only [] at ha
      rcases hp : parse_replay_data_for_step_physics sd with e | d
      · rw [hp] at ha
        simp [pyOk] at ha
      have hv : ev = "stepPhysics" := by simpa [is_physics_step] using h3
      subst hv
      simp [handle_step, he, hev, getKey, hd, hp, hrr, is_physics_step]
    · rw [if_neg h3] at ha
      simp at ha

/-- Under the C10 hypothesis, the row loop either raises
`KeyError "reference_replay"` itself (at the first well-formed action or
physics viewer row) or finishes with an episode that still lacks the key. -/
theorem convertLoop_noreplay (rows : List Row) :
    ∀ (viewer : Bool) (ep : Episode) (il : List String),
      ep.reference_replay = none → c10check rows viewer = true →
      convertLoop rows ep viewer il = Except.error (PyError.keyError "reference_replay") ∨
      ∃ ep2 il2, convertLoop rows ep viewer il = Except.ok (ep2, il2) ∧
        ep2.reference_replay = none := by
  induction rows with
  | nil =>
    intro viewer ep il hrr _
    exact Or.inr ⟨ep, il, rfl, hrr⟩
  | cons row rest ih =>
    intro viewer ep il hrr hc
    unfold c10check at hc
    rcases hg0 : row.get? 0 with _ | cc0
    · rw [hg0] at hc
      simp at hc
    rw [hg0] at hc
    rcases hg1 : row.get? 1 with _ | cc1
    · rw [hg1] at hc
      simp at hc
    rw [hg1] at hc
    rcases hg2 : row.get? 2 with _ | cc2
    · rw [hg2] at hc
      simp at hc
    rw [hg2] at hc
    rcases hg3 : row.get? 3 with _ | cc3
    · rw [hg3] at hc
      simp at hc
    rw [hg3] at hc
    simp only [] at hc
    rw [List.get?_eq_getElem?] at hg0 hg1 hg2 hg3
    rcases hj : cc3.json with _ | p
    · rw [hj] at hc
      simp at hc
    rw [hj] at hc
    rcases p with _ | st
    · simp at hc
    simp only [] at hc
    cases viewer with
    | true =>
      rw [if_pos rfl] at hc
      by_cases hb : benignStep st = true
      · rw [if_pos hb] at hc
        obtain ⟨b, hhs⟩ := handle_step_benign st hb ep cc0.raw cc2.raw il
        have hred : convertLoop (row :: rest) ep true il = convertLoop rest ep true il := by
          simp [convertLoop, getItem, hg0, hg1, hg2, hg3, column_to_json, hj, hhs]
        rw [hred]
        exact ih true ep il hrr hc
      · rw [if_neg hb] at hc
        have herr := handle_step_action_noreplay st hc ep hrr cc0.raw cc2.raw il
        left
        simp [convertLoop, getItem, hg0, hg1, hg2, hg3, column_to_json, hj, herr]
    | false =>
      rw [if_neg (by decide)] at hc
      rcases hv : is_viewer_step (some st) with e | v
      · rw [hv] at hc
        simp at hc
      rw [hv] at hc
      simp only [] at hc
      cases v with
      | true =>
        rw [if_pos rfl] at hc
        by_cases hb : benignStep st = true
        · rw [if_pos hb] at hc
          obtain ⟨b, hhs⟩ := handle_step_benign st hb ep cc0.raw cc2.raw il
          have hred : convertLoop (row :: rest) ep false il = convertLoop rest ep true il := by
            simp [convertLoop, getItem, hg0, hg1, hg2, hg3, column_to_json, hj, hv, hhs]
          rw [hred]
          exact ih true ep il hrr hc
        · rw [if_neg hb] at hc
          have herr := handle_step_action_noreplay st hc ep hrr cc0.raw cc2.raw il
          left
          simp [convertLoop, getItem, hg0, hg1, hg2, hg3, column_to_json, hj, hv, herr]
      | false =>
        rw [if_neg (by decide)] at hc
        have hred : convertLoop (row :: rest) ep false il = convertLoop rest ep false il := by
          simp [convertLoop, getItem, hg0, hg1, hg2, hg3, column_to_json, hj, hv]
        rw [hred]
        exact ih false ep il hrr hc

/-- C10 (confirmed): for a log whose rows are well-formed and contain no
`setEpisode` before the first action/physics viewer row (or none at all),
the episode dict never acquires the `reference_replay` key, so
`convert_to_episode` raises `KeyError "reference_replay"` — either at that
action/physics row or at the final compaction lookup — and the error
propagates out of `replay_to_episode`, aborting the whole batch. -/
theorem C10_keyerror (rows : List Row) (il : List String) (post : List (List Row))
    (hc : c10check rows false = true) :
    convert_to_episode rows il = Except.error (PyError.keyError "reference_replay") ∧
    replay_to_episode (rows :: post) = Except.error (PyError.keyError "reference_replay") := by
  have hgen : ∀ il' : List String,
      convert_to_episode rows il' = Except.error (PyError.keyError "reference_replay") := by
    intro il'
    unfold convert_to_episode
    rcases convertLoop_noreplay rows false {} il' rfl hc with h | ⟨ep2, il2, h, hrr2⟩
    · simp [h]
    · simp [h, getKey, hrr2]
  refine ⟨hgen il, ?_⟩
  unfold replay_to_episode replayFilesLoop
  rw [hgen []]

/-- C10 (witness): a single well-formed viewer `handleAction` row with no
`setEpisode` aborts the conversion and the batch with
`KeyError "reference_replay"`. -/
theorem C10_witness :
    convert_to_episode w10rows [] = Except.error (PyError.keyError "reference_replay") ∧
    replay_to_episode [w10rows] = Except.error (PyError.keyError "reference_replay") :=
  C10_keyerror w10rows [] [] (by decide)
